import Mathlib

/-!
Shallow embedding of the hop-bunny platformer core (Platform, PlatformManager
and Game classes) and proofs about it.  JavaScript numbers are modelled as
rationals; the per-call outputs of Math.random are passed in explicitly as
parameters in [0, 1).  One function, Game.recoverPlayerIfNeeded, is modelled
over a dedicated number type JSNum that includes NaN and the infinities,
because its behaviour on non-finite values is what is at stake there.
-/

namespace HopBunny

/-- The five platform types of the game. -/
inductive PlatformType
  | normal
  | bouncy
  | breakable
  | moving
  | disappearing
  deriving DecidableEq, Repr

open PlatformType

/-- State of one platform: the mutable fields of the Platform class
(colour table and draw-only state omitted). -/
structure Platform where
  x : ℚ
  y : ℚ
  width : ℚ
  height : ℚ
  type : PlatformType
  active : Bool
  opacity : ℚ
  breakProgress : ℚ
  direction : ℚ
  velocityX : ℚ
  maxVelocityX : ℚ
  disappearTimer : ℚ
  animationTime : ℚ
  deriving DecidableEq, Repr

/-- The Platform constructor: `new Platform(x, y, width, height, type)`.
`rDir` is the Math.random draw deciding the initial moving direction
(`Math.random() > 0.5 ? 1 : -1`). -/
def mkPlatform (x y width height : ℚ) (type : PlatformType) (rDir : ℚ) : Platform where
  x := x
  y := y
  width := width
  height := height
  type := type
  active := true
  opacity := 1
  breakProgress := 0
  direction := if rDir > 1/2 then 1 else -1
  velocityX := 0
  maxVelocityX := 2
  disappearTimer := 0
  animationTime := 0

/-- `Platform.update(deltaTime, canvasWidth)`: animation clock, then the
switch on the platform type (moving drift and edge bounce, breakable break
progress and fade, disappearing timer and fade). -/
def Platform.update (p : Platform) (deltaTime canvasWidth : ℚ) : Platform :=
  let p := { p with animationTime := p.animationTime + deltaTime * (1/100) }
  match p.type with
  | .moving =>
      let velocityX := p.direction * p.maxVelocityX
      let x := p.x + velocityX
      let direction := if x ≤ 0 ∨ x + p.width ≥ canvasWidth then -p.direction else p.direction
      { p with velocityX := velocityX, x := x, direction := direction }
  | .breakable =>
      if p.breakProgress > 0 then
        let breakProgress := p.breakProgress + deltaTime * (5/100)
        { p with breakProgress := breakProgress,
                 opacity := 1 - breakProgress,
                 active := if breakProgress ≥ 1 then false else p.active }
      else p
  | .disappearing =>
      if p.disappearTimer > 0 then
        let disappearTimer := p.disappearTimer + deltaTime
        { p with disappearTimer := disappearTimer,
                 opacity := 1 - disappearTimer / 60,
                 active := if disappearTimer ≥ 60 then false else p.active }
      else p
  | _ => p

/-- Modelled from the spec: `Utils.randomBetween(min, max)` (the Utils module
is not among the source files) — "Picks a gap size uniformly from
[minGap, maxGap]", so the draw is min plus a uniform fraction r in [0, 1) of
the span. -/
def randomBetween (r min max : ℚ) : ℚ :=
  min + r * (max - min)

/-- The per-call Math.random draws one call of generatePlatform consumes:
the gap, the width, the x position, the special-platform trigger, the
score-banded type pick, the anti-repetition coin, the score-300-310
consistency coin, and the Platform constructor direction coin. -/
structure GenDraws where
  rGap : ℚ
  rWidth : ℚ
  rX : ℚ
  rSpecial : ℚ
  rBand : ℚ
  rAnti : ℚ
  rWindow : ℚ
  rDir : ℚ
  deriving Repr

/-- State of the PlatformManager class: the fields its constructor sets. -/
structure PlatformManager where
  canvasWidth : ℚ
  canvasHeight : ℚ
  platforms : List Platform
  minPlatformWidth : ℚ
  maxPlatformWidth : ℚ
  platformHeight : ℚ
  minGapY : ℚ
  maxGapY : ℚ
  specialPlatformChance : ℚ
  highestPlatformY : ℚ
  platformDensity : ℚ
  density : ℚ
  minWidth : ℚ
  maxWidth : ℚ
  deriving Repr

/-- The score-banded special type distribution inside generatePlatform:
three bands on the height-derived score, each a partition of [0, 1) over
the band random draw. -/
def bandType (score rBand : ℚ) : PlatformType :=
  if score < 300 then
    if rBand < 6/10 then .bouncy
    else if rBand < 9/10 then .moving
    else .normal
  else if score < 1000 then
    if rBand < 4/10 then .bouncy
    else if rBand < 7/10 then .moving
    else if rBand < 9/10 then .breakable
    else .disappearing
  else
    if rBand < 25/100 then .bouncy
    else if rBand < 5/10 then .moving
    else if rBand < 75/100 then .breakable
    else .disappearing

/-- `this.platforms.slice(-3).map(p => p.type)`: the types of the last
(up to) three platforms in the list. -/
def PlatformManager.lastFewTypes (m : PlatformManager) : List PlatformType :=
  (m.platforms.drop (m.platforms.length - 3)).map Platform.type

/-- The full type selection of generatePlatform: score-gated special chance,
band pick, the two anti-repetition rules over the last three platforms, and
the score-300-310 consistency override. -/
def PlatformManager.pickType (m : PlatformManager) (score : ℚ) (d : GenDraws) :
    PlatformType :=
  let specialChance := min (6/10) (2/10 + score / 1000)
  if d.rSpecial < specialChance then
    let t0 := bandType score d.rBand
    let lastFewTypes := m.lastFewTypes
    let t1 :=
      if t0 = .disappearing ∧ .disappearing ∈ lastFewTypes then .normal
      else if t0 = .breakable ∧ .breakable ∈ lastFewTypes ∧
              .disappearing ∈ lastFewTypes then
        if d.rAnti < 1/2 then .bouncy else .normal
      else t0
    if 300 ≤ score ∧ score ≤ 310 then
      if d.rWindow < 7/10 then .normal else .bouncy
    else t1
  else .normal

/-- `PlatformManager.generatePlatform()`: draw the gap, advance the frontier,
draw width and x, pick the type, construct the platform and append it.
Returns the new manager state and the platform the call returns. -/
def PlatformManager.generatePlatform (m : PlatformManager) (d : GenDraws) :
    PlatformManager × Platform :=
  let gap := randomBetween d.rGap m.minGapY m.maxGapY
  let newY := m.highestPlatformY - gap
  let width := randomBetween d.rWidth m.minWidth m.maxWidth
  let x := randomBetween d.rX 0 (m.canvasWidth - width)
  let score := |newY| / 10
  let type := m.pickType score d
  let platform := mkPlatform x newY width m.platformHeight type d.rDir
  ({ m with highestPlatformY := newY, platforms := m.platforms ++ [platform] },
   platform)

/-- State of the player entity: the fields of the Player class that the
source files read or write (position, size, velocity, physics constants and
the two state flags). -/
structure PlayerState where
  x : ℚ
  y : ℚ
  width : ℚ
  height : ℚ
  velocityX : ℚ
  velocityY : ℚ
  gravity : ℚ
  jumpForce : ℚ
  isAlive : Bool
  isFalling : Bool
  deriving DecidableEq, Repr

/-- Modelled from the spec: `Player.onPlatformCollision(platform)` (the
Player class is not among the source files).  Section 4.3 of the spec:
normal, moving, breakable and disappearing platforms impart the fixed
upward jump impulse, bouncy platforms a larger one; the handler reports the
collision as handled.  The platform-side break or vanish trigger does not
affect the scan, which stops here. -/
def PlayerState.onPlatformCollision (pl : PlayerState) (p : Platform) :
    PlayerState × Bool :=
  let impulse := if p.type = .bouncy then pl.jumpForce * (3/2) else pl.jumpForce
  ({ pl with velocityY := impulse, isFalling := false }, true)

/-- The AABB test of checkCollisions together with its two pre-filters
(active, vertical tolerance of 20 around the bottom edge of the player). -/
def collisionMatch (pl : PlayerState) (p : Platform) : Bool :=
  p.active && decide (|p.y - (pl.y + pl.height)| ≤ 20) &&
  decide (pl.x < p.x + p.width) && decide (pl.x + pl.width > p.x) &&
  decide (pl.y + pl.height ≥ p.y) && decide (pl.y < p.y + p.height)

/-- The platform scan of checkCollisions: skip inactive platforms and those
outside the vertical tolerance, test the AABB overlap, delegate to the
player handler on a hit and stop as soon as the handler reports success. -/
def scanCollisions : List Platform → PlayerState → Bool × PlayerState
  | [], pl => (false, pl)
  | p :: rest, pl =>
    if ¬ p.active then scanCollisions rest pl
    else if |p.y - (pl.y + pl.height)| > 20 then scanCollisions rest pl
    else if pl.x < p.x + p.width ∧ pl.x + pl.width > p.x ∧
            pl.y + pl.height ≥ p.y ∧ pl.y < p.y + p.height then
      let r := pl.onPlatformCollision p
      if r.2 then (true, r.1) else scanCollisions rest r.1
    else scanCollisions rest pl

/-- `PlatformManager.checkCollisions(player)`: nothing while the player is
not falling (`velocityY <= 0`), otherwise the scan over the platform list.
Returns the collided flag and the player as the handler left it. -/
def PlatformManager.checkCollisions (m : PlatformManager) (pl : PlayerState) :
    Bool × PlayerState :=
  if pl.velocityY ≤ 0 then (false, pl)
  else scanCollisions m.platforms pl

/-- The generation while-loop of PlatformManager.update, with explicit fuel:
`while (highestPlatformY > cameraY - canvasHeight * 2) generatePlatform()`.
The source loop carries no bound; genFuel below provably suffices whenever
the configured minimum gap is positive. -/
def PlatformManager.genLoop :
    ℕ → PlatformManager → ℚ → (ℕ → GenDraws) → PlatformManager
  | 0, m, _, _ => m
  | fuel + 1, m, cameraY, gens =>
    if m.highestPlatformY > cameraY - m.canvasHeight * 2 then
      PlatformManager.genLoop fuel (m.generatePlatform (gens 0)).1 cameraY
        (fun n => gens (n + 1))
    else m

/-- Fuel for genLoop: enough iterations to bring the frontier below the
look-ahead threshold when every gap is at least the (positive) minimum. -/
def PlatformManager.genFuel (m : PlatformManager) (cameraY : ℚ) : ℕ :=
  if 0 < m.minGapY then
    (Int.ceil ((m.highestPlatformY - (cameraY - m.canvasHeight * 2)) / m.minGapY)).toNat
  else 0

/-- The Math.random draws one density-filler platform consumes in
PlatformManager.update: its y offset, width, x position and the Platform
constructor direction coin. -/
structure FillDraws where
  rY : ℚ
  rWidth : ℚ
  rX : ℚ
  rDir : ℚ
  deriving Repr

/-- One density-filler platform pushed by PlatformManager.update. -/
def PlatformManager.pushFiller (m : PlatformManager) (cameraY : ℚ)
    (f : FillDraws) : PlatformManager :=
  let y := cameraY + randomBetween f.rY 100 (m.canvasHeight - 100)
  let width := randomBetween f.rWidth m.minWidth m.maxWidth
  let x := randomBetween f.rX 0 (m.canvasWidth - width)
  { m with platforms :=
      m.platforms ++ [mkPlatform x y width m.platformHeight .normal f.rDir] }

/-- `PlatformManager.update(deltaTime, cameraY)`: update every platform and
drop the inactive or far-below-camera ones (the backward splice loop updates
each platform once and removes it by the same condition, so it equals a map
followed by a filter), then run the generation loop, then top up density
with two filler platforms when too few are visible. -/
def PlatformManager.update (m : PlatformManager) (deltaTime cameraY : ℚ)
    (gens : ℕ → GenDraws) (f1 f2 : FillDraws) : PlatformManager :=
  let platforms := (m.platforms.map (fun p => p.update deltaTime m.canvasWidth)).filter
      (fun p => p.active && decide (p.y ≤ cameraY + m.canvasHeight + 300))
  let m1 := { m with platforms := platforms }
  let m2 := PlatformManager.genLoop (m1.genFuel cameraY) m1 cameraY gens
  let visiblePlatforms := m2.platforms.filter (fun p =>
      decide (p.y ≥ cameraY - 100) && decide (p.y ≤ cameraY + m2.canvasHeight + 100))
  if (visiblePlatforms.length : ℚ) < m2.density * m2.platformDensity then
    (m2.pushFiller cameraY f1).pushFiller cameraY f2
  else m2

/-- The Math.random draws consumed when the entity set is (re)built: the
starting platform direction coin inside the manager constructor, the x and
direction draws of the five bottom platforms, the draw streams of the
initial generatePlatform calls, and the direction coin of the extra
starting platform Game.initEntities pushes. -/
structure InitDraws where
  startDir : ℚ
  bottomX : ℕ → ℚ
  bottomDir : ℕ → ℚ
  gens : ℕ → GenDraws
  startingDir : ℚ

/-- `PlatformManager.generateInitialPlatforms(count)`: the fixed starting
platform below the player, five bottom platforms 70 apart, then
`count - 1` generatePlatform calls (the source loop runs i from 6 to
count + 4). -/
def PlatformManager.generateInitialPlatforms (m : PlatformManager) (count : ℕ)
    (d : InitDraws) : PlatformManager :=
  let startPlatform := mkPlatform (m.canvasWidth / 2 - 75) (m.canvasHeight - 100)
    150 m.platformHeight .normal d.startDir
  let m := { m with platforms := m.platforms ++ [startPlatform],
                    highestPlatformY := startPlatform.y }
  let m := (List.range 5).foldl (fun mm i =>
      let x := randomBetween (d.bottomX i) 0 (mm.canvasWidth - 100)
      let y := mm.canvasHeight - 200 - (i : ℚ) * 70
      let platform := mkPlatform x y 100 mm.platformHeight .normal (d.bottomDir i)
      { mm with platforms := mm.platforms ++ [platform],
                highestPlatformY := min mm.highestPlatformY y }) m
  (List.range (count - 1)).foldl (fun mm i => (mm.generatePlatform (d.gens i)).1) m

/-- The PlatformManager constructor: the field initialisers of the class,
then generateInitialPlatforms. -/
def mkPlatformManager (canvasWidth canvasHeight : ℚ) (initialPlatformCount : ℕ)
    (d : InitDraws) : PlatformManager :=
  let m : PlatformManager :=
    { canvasWidth := canvasWidth
      canvasHeight := canvasHeight
      platforms := []
      minPlatformWidth := 80
      maxPlatformWidth := 150
      platformHeight := 20
      minGapY := 70
      maxGapY := 110
      specialPlatformChance := 3/10
      highestPlatformY := canvasHeight
      platformDensity := 1
      density := 10
      minWidth := 60
      maxWidth := 120 }
  m.generateInitialPlatforms initialPlatformCount d

/-- Modelled from the spec: the Player constructor (the Player class is not
among the source files).  Position and size are the constructor arguments;
the base physics constants are the difficulty-1 values of the formulas in
Game.increaseDifficulty: gravity 0.5 and jump force -15. -/
def mkPlayer (x y width height : ℚ) : PlayerState where
  x := x
  y := y
  width := width
  height := height
  velocityX := 0
  velocityY := 0
  gravity := 1/2
  jumpForce := -15
  isAlive := true
  isFalling := false

/-- The camera record of the Game constructor. -/
structure Camera where
  y : ℚ
  targetY : ℚ
  smoothing : ℚ
  deriving DecidableEq, Repr

/-- Modelled from the spec: the two EnemyManager fields the Game touches
(the EnemyManager class is not among the source files); base values are the
difficulty-1 values of the formulas in Game.increaseDifficulty. -/
structure EnemyManagerState where
  spawnChance : ℚ
  maxSpeed : ℚ
  deriving DecidableEq, Repr

/-- State of the Game class: the fields the modelled methods read or write
(canvas size, run flags, score and difficulty state, camera, player, the
platform manager and the enemy-manager knobs). -/
structure Game where
  canvasWidth : ℚ
  canvasHeight : ℚ
  isRunning : Bool
  isGameOver : Bool
  score : ℚ
  highScore : ℚ
  difficulty : ℚ
  lastDifficultyIncrease : ℚ
  camera : Camera
  player : PlayerState
  platformManager : PlatformManager
  enemyManager : EnemyManagerState

/-- `Game.initEntities()`: a fresh player, a fresh platform manager with 15
initial platforms, fresh enemy-manager state, and one extra starting
platform pushed directly under the player
(`platformManager.platformHeight || 20` reads 20 off the fresh manager). -/
def Game.initEntities (g : Game) (d : InitDraws) : Game :=
  let player := mkPlayer (g.canvasWidth / 2 - 30) (g.canvasHeight - 150) 60 100
  let platformManager := mkPlatformManager g.canvasWidth g.canvasHeight 15 d
  let startingPlatform := mkPlatform (g.canvasWidth / 2 - 40) (g.canvasHeight - 40)
    80 platformManager.platformHeight .normal d.startingDir
  { g with
      player := player
      platformManager := { platformManager with
        platforms := platformManager.platforms ++ [startingPlatform] }
      enemyManager := { spawnChance := 2/10, maxSpeed := 2 } }

/-- `Game.increaseDifficulty()`: difficulty up by one, then the capped
difficulty formulas for player physics, platform generation bounds, enemy
spawning and camera smoothing. -/
def Game.increaseDifficulty (g : Game) : Game :=
  let difficulty := g.difficulty + 1
  let player := { g.player with
    gravity := min (1/2 + (difficulty - 1) * (5/100)) (8/10)
    jumpForce := max (-15 - (difficulty - 1)) (-20) }
  let platformReduction := min (difficulty - 1) 5
  let widthReduction := min ((difficulty - 1) * 10) 40
  let heightReduction := min ((difficulty - 1) * 2) 10
  let platformManager := { g.platformManager with
    density := max (10 - platformReduction) 5
    minWidth := max (60 - widthReduction) 20
    maxWidth := max (120 - widthReduction) 60
    platformHeight := max (20 - heightReduction) 10 }
  let enemyManager : EnemyManagerState :=
    { spawnChance := min (2/10 + (difficulty - 1) * (5/100)) (1/2)
      maxSpeed := min (2 + (difficulty - 1) * (1/2)) 5 }
  { g with
      difficulty := difficulty
      lastDifficultyIncrease := g.score
      player := player
      platformManager := platformManager
      enemyManager := enemyManager
      camera := { g.camera with
        smoothing := min (1/10 + (difficulty - 1) * (2/100)) (2/10) } }

/-- `Game.updateScore(newScore)`: a no-op unless the new score is strictly
larger; on a crossed 1000-point boundary (compared by Math.floor of
score / 1000) one increaseDifficulty call; then the score is stored.  The
100-point branch only plays a sound and animates the DOM, and the
thousand-milestone overlay timer is display-only state, both omitted. -/
def Game.updateScore (g : Game) (newScore : ℚ) : Game :=
  if newScore > g.score then
    let g1 :=
      if Int.floor (newScore / 1000) > Int.floor (g.score / 1000) then
        g.increaseDifficulty
      else g
    { g1 with score := newScore }
  else g

/-- `Game.restart()`: zero the score (updateScore(0) is then a no-op),
zero the camera offset, clear game over, reset difficulty, rebuild the
entities and set the loop running. -/
def Game.restart (g : Game) (d : InitDraws) : Game :=
  let g := { g with score := 0 }
  let g := g.updateScore 0
  let g := { g with
    camera := { g.camera with y := 0, targetY := 0 }
    isGameOver := false
    difficulty := 1
    lastDifficultyIncrease := 0 }
  let g := g.initEntities d
  { g with isRunning := true }

/-- Modelled from the spec: `Utils.ease(current, target, factor)` (the Utils
module is not among the source files) — "smoothing factor" easing: move the
current value toward the target by the given fraction. -/
def ease (current target factor : ℚ) : ℚ :=
  current + (target - current) * factor

/-- The easing constant Game.updateCamera selects:
`player.velocityY > 0 ? 0.05 : 0.1` (velocityY > 0 is falling, y grows
downward). -/
def Game.cameraEasing (g : Game) : ℚ :=
  if g.player.velocityY > 0 then 5/100 else 1/10

/-- `Game.updateCamera(deltaTime)`: retarget when the player is in the upper
two thirds of the screen, hold the target when the player is low and the
target lies below the camera, ease the camera toward the target with
cameraEasing, and kill the player once below the visible window. -/
def Game.updateCamera (g : Game) : Game :=
  let screenY := g.player.y - g.camera.y
  let targetY1 :=
    if screenY < g.canvasHeight * (67/100) then g.player.y - g.canvasHeight * (1/2)
    else g.camera.targetY
  let targetY2 :=
    if screenY > g.canvasHeight * (8/10) ∧ targetY1 > g.camera.y then g.camera.y
    else targetY1
  let cameraY := ease g.camera.y targetY2 g.cameraEasing
  let player :=
    if screenY > g.canvasHeight + 50 then { g.player with isAlive := false }
    else g.player
  { g with
      camera := { g.camera with y := cameraY, targetY := targetY2 }
      player := player }

/-- A JavaScript number as Game.recoverPlayerIfNeeded sees it: a finite
value (a rational here), NaN, or one of the two infinities.  Rounding plays
no role in that function, so finite arithmetic is exact. -/
inductive JSNum
  | num (q : ℚ)
  | nan
  | inf
  | ninf
  deriving DecidableEq, Repr

namespace JSNum

/-- JavaScript negation. -/
def neg : JSNum → JSNum
  | num a => num (-a)
  | nan => nan
  | inf => ninf
  | ninf => inf

/-- JavaScript addition: NaN absorbs, opposite infinities give NaN. -/
def add : JSNum → JSNum → JSNum
  | num a, num b => num (a + b)
  | nan, _ => nan
  | _, nan => nan
  | inf, inf => inf
  | inf, ninf => nan
  | ninf, inf => nan
  | ninf, ninf => ninf
  | inf, num _ => inf
  | num _, inf => inf
  | ninf, num _ => ninf
  | num _, ninf => ninf

/-- JavaScript subtraction. -/
def sub (a b : JSNum) : JSNum :=
  add a (neg b)

/-- JavaScript multiplication: NaN absorbs, infinity times zero is NaN,
otherwise signs multiply. -/
def mul : JSNum → JSNum → JSNum
  | num a, num b => num (a * b)
  | nan, _ => nan
  | _, nan => nan
  | inf, inf => inf
  | inf, ninf => ninf
  | ninf, inf => ninf
  | ninf, ninf => inf
  | inf, num b => if 0 < b then inf else if b < 0 then ninf else nan
  | num a, inf => if 0 < a then inf else if a < 0 then ninf else nan
  | ninf, num b => if 0 < b then ninf else if b < 0 then inf else nan
  | num a, ninf => if 0 < a then ninf else if a < 0 then inf else nan

/-- JavaScript division, as used here (divisors are the constant 2):
x / 0 follows the sign of x, finite over infinite is zero. -/
def div : JSNum → JSNum → JSNum
  | nan, _ => nan
  | _, nan => nan
  | num a, num b =>
      if b = 0 then (if 0 < a then inf else if a < 0 then ninf else nan)
      else num (a / b)
  | inf, num b => if b < 0 then ninf else inf
  | ninf, num b => if b < 0 then inf else ninf
  | num _, inf => num 0
  | num _, ninf => num 0
  | inf, inf => nan
  | inf, ninf => nan
  | ninf, inf => nan
  | ninf, ninf => nan

/-- The JavaScript < comparison: false whenever NaN is involved. -/
def lt : JSNum → JSNum → Bool
  | nan, _ => false
  | _, nan => false
  | num a, num b => decide (a < b)
  | ninf, ninf => false
  | ninf, num _ => true
  | ninf, inf => true
  | num _, inf => true
  | inf, _ => false
  | num _, ninf => false

/-- The JavaScript isNaN test. -/
def isNaN : JSNum → Bool
  | nan => true
  | _ => false

end JSNum

/-- The player fields Game.recoverPlayerIfNeeded reads or writes. -/
structure RecoverPlayer where
  x : JSNum
  y : JSNum
  width : JSNum
  height : JSNum
  velocityX : JSNum
  velocityY : JSNum
  jumpForce : JSNum
  isAlive : Bool
  deriving DecidableEq, Repr

/-- The Game fields Game.recoverPlayerIfNeeded reads: canvas size, camera
offset, and the player. -/
structure RecoverEnv where
  canvasWidth : JSNum
  canvasHeight : JSNum
  cameraY : JSNum
  player : RecoverPlayer
  deriving DecidableEq, Repr

/-- `Game.recoverPlayerIfNeeded()`: recenter a horizontally off-screen
player; a player more than one screen above or one below the visible window
dies (early return); a NaN position or velocity resets the player to the
horizontal center, 70 percent down the screen relative to the camera, with
zero horizontal and half-jump-force vertical velocity. -/
def recoverPlayerIfNeeded (g : RecoverEnv) : RecoverEnv :=
  let px :=
    if JSNum.lt g.player.x (JSNum.neg (JSNum.mul g.player.width (JSNum.num 2))) ||
       JSNum.lt (JSNum.add g.canvasWidth (JSNum.mul g.player.width (JSNum.num 2)))
         g.player.x then
      JSNum.sub (JSNum.div g.canvasWidth (JSNum.num 2))
        (JSNum.div g.player.width (JSNum.num 2))
    else g.player.x
  let screenY := JSNum.sub g.player.y g.cameraY
  if JSNum.lt screenY (JSNum.neg g.canvasHeight) ||
     JSNum.lt (JSNum.mul g.canvasHeight (JSNum.num 2)) screenY then
    { g with player := { g.player with x := px, isAlive := false } }
  else if JSNum.isNaN px || JSNum.isNaN g.player.y ||
          JSNum.isNaN g.player.velocityX || JSNum.isNaN g.player.velocityY then
    { g with player := { g.player with
        x := JSNum.sub (JSNum.div g.canvasWidth (JSNum.num 2))
          (JSNum.div g.player.width (JSNum.num 2))
        y := JSNum.add g.cameraY (JSNum.mul g.canvasHeight (JSNum.num (7/10)))
        velocityX := JSNum.num 0
        velocityY := JSNum.mul g.player.jumpForce (JSNum.num (1/2)) } }
  else
    { g with player := { g.player with x := px } }

/-- A platform manager in its post-constructor configuration (the field
initialisers of the class) with an empty platform list, used as a concrete
state in witnesses. -/
def sampleManager : PlatformManager where
  canvasWidth := 400
  canvasHeight := 600
  platforms := []
  minPlatformWidth := 80
  maxPlatformWidth := 150
  platformHeight := 20
  minGapY := 70
  maxGapY := 110
  specialPlatformChance := 3/10
  highestPlatformY := 600
  platformDensity := 1
  density := 10
  minWidth := 60
  maxWidth := 120

/-- All-zero random draws. -/
def sampleDraws : GenDraws where
  rGap := 0
  rWidth := 0
  rX := 0
  rSpecial := 0
  rBand := 0
  rAnti := 0
  rWindow := 0
  rDir := 0

/-- A manager whose most recent platform is disappearing. -/
def sampleManagerDis : PlatformManager :=
  { sampleManager with platforms := [mkPlatform 0 500 100 20 .disappearing 0] }

/-- A manager whose frontier sits so that the next generated platform lands
exactly at score 300 (gap bounds pinned to 70), with a disappearing platform
as the most recent one. -/
def sampleManager300 : PlatformManager :=
  { sampleManager with
      highestPlatformY := -2930
      minGapY := 70
      maxGapY := 70
      platforms := [mkPlatform 0 (-2900) 100 20 .disappearing 0] }

/-- Draws that pick the disappearing band entry (rBand 0.95) and take the
bouncy side of the score-300-310 consistency coin (rWindow 0.8). -/
def cexDraws : GenDraws where
  rGap := 0
  rWidth := 0
  rX := 0
  rSpecial := 0
  rBand := 95/100
  rAnti := 0
  rWindow := 8/10
  rDir := 0

/-- A game in its post-constructor configuration, used as a concrete state
in witnesses and counterexamples. -/
def sampleGame : Game where
  canvasWidth := 400
  canvasHeight := 600
  isRunning := true
  isGameOver := false
  score := 0
  highScore := 0
  difficulty := 1
  lastDifficultyIncrease := 0
  camera := { y := 0, targetY := 0, smoothing := 1/10 }
  player := mkPlayer 170 450 60 100
  platformManager := sampleManager
  enemyManager := { spawnChance := 2/10, maxSpeed := 2 }

/-- The sample game with a falling player (velocityY 1). -/
def sampleGameFalling : Game :=
  { sampleGame with player := { sampleGame.player with velocityY := 1 } }

/-- The sample game with a rising player (velocityY -1). -/
def sampleGameRising : Game :=
  { sampleGame with player := { sampleGame.player with velocityY := -1 } }

/-- All-zero filler draws. -/
def sampleFill : FillDraws where
  rY := 0
  rWidth := 0
  rX := 0
  rDir := 0

/-- A recovery environment whose player has an infinite y position. -/
def sampleEnvInf : RecoverEnv where
  canvasWidth := .num 400
  canvasHeight := .num 600
  cameraY := .num 0
  player :=
    { x := .num 170, y := .inf, width := .num 60, height := .num 100
      velocityX := .num 0, velocityY := .num 0, jumpForce := .num (-15)
      isAlive := true }

/-- A recovery environment whose player has a NaN x position and an
on-screen finite y. -/
def sampleEnvNaN : RecoverEnv where
  canvasWidth := .num 400
  canvasHeight := .num 600
  cameraY := .num 0
  player :=
    { x := .nan, y := .num 300, width := .num 60, height := .num 100
      velocityX := .num 0, velocityY := .num 0, jumpForce := .num (-15)
      isAlive := true }

end HopBunny

namespace HopBunny

/-- C10: frame condition of Platform.update — y, width, height and type are
never written; x only changes for moving platforms; and for normal, bouncy
and moving platforms the active flag and the opacity are left unchanged. -/
theorem Platform.update_frame :
    ∀ (p : Platform) (deltaTime canvasWidth : ℚ),
      let p' := p.update deltaTime canvasWidth
      p'.y = p.y ∧ p'.width = p.width ∧ p'.height = p.height ∧ p'.type = p.type ∧
      (p.type ≠ .moving → p'.x = p.x) ∧
      ((p.type = .normal ∨ p.type = .bouncy ∨ p.type = .moving) →
        p'.active = p.active ∧ p'.opacity = p.opacity) := by
  intro p deltaTime canvasWidth
  cases h : p.type <;>
    simp [Platform.update, h] <;>
    split <;> simp

/-- C2: the stored score never decreases across a Game.updateScore call,
whatever score is passed in. -/
theorem Game.updateScore_monotone :
    ∀ (g : Game) (newScore : ℚ), g.score ≤ (g.updateScore newScore).score := by
  intro g n
  unfold Game.updateScore
  split
  · next h => simp; linarith
  · exact le_refl _

/-- C3 counterexample: one updateScore call that crosses the two boundaries
1000 and 2000 at once (score 0 to 2000) raises the difficulty by exactly 1,
not by 2 as the claim demands. -/
theorem Game.updateScore_two_boundaries_counterexample :
    Int.floor ((2000 : ℚ) / 1000) - Int.floor (sampleGame.score / 1000) = 2 ∧
    (sampleGame.updateScore 2000).difficulty = sampleGame.difficulty + 1 ∧
    (sampleGame.updateScore 2000).difficulty ≠ sampleGame.difficulty + 2 := by
  have h0 : Int.floor ((0 : ℚ) / 1000) = 0 := by norm_num
  have h2 : Int.floor ((2000 : ℚ) / 1000) = 2 := by norm_num [Int.floor_eq_iff]
  refine ⟨?_, ?_, ?_⟩ <;>
    norm_num [Game.updateScore, Game.increaseDifficulty, sampleGame, h0, h2]

/-- C3 amended: within a run the difficulty level is monotonically
non-decreasing, and one updateScore call raises it by exactly 1 when it
crosses at least one 1000-point boundary (however many it crosses) and
leaves it unchanged otherwise. -/
theorem Game.updateScore_difficulty :
    ∀ (g : Game) (newScore : ℚ),
      g.difficulty ≤ (g.updateScore newScore).difficulty ∧
      (g.updateScore newScore).difficulty =
        (if newScore > g.score ∧
            Int.floor (newScore / 1000) > Int.floor (g.score / 1000) then
          g.difficulty + 1
        else g.difficulty) := by
  intro g n
  have h : (g.updateScore n).difficulty =
      (if n > g.score ∧ Int.floor (n / 1000) > Int.floor (g.score / 1000) then
        g.difficulty + 1
      else g.difficulty) := by
    unfold Game.updateScore Game.increaseDifficulty
    split
    · next h1 =>
        split
        · next h2 => simp [h1, h2]
        · next h2 => simp [h1, h2]
    · next h1 =>
        have hc : ¬ (n > g.score ∧ Int.floor (n / 1000) > Int.floor (g.score / 1000)) :=
          fun hc => h1 hc.1
        simp [hc]
  refine ⟨?_, h⟩
  rw [h]
  split <;> linarith

/-- C5 counterexample: the easing constant for a falling player (velocityY
1) is 0.05 and for a rising player (velocityY -1) it is 0.1, so the falling
constant is strictly smaller, not strictly larger as claimed. -/
theorem Game.cameraEasing_counterexample :
    Game.cameraEasing sampleGameFalling = 5/100 ∧
    Game.cameraEasing sampleGameRising = 1/10 ∧
    Game.cameraEasing sampleGameFalling < Game.cameraEasing sampleGameRising := by
  refine ⟨?_, ?_, ?_⟩ <;>
    norm_num [Game.cameraEasing, sampleGameFalling, sampleGameRising, sampleGame,
      mkPlayer]

/-- C5 amended: updateCamera eases camera.y toward the target with
cameraEasing, which is 0.05 while the player is falling (velocityY > 0) and
0.1 otherwise — the falling constant is strictly smaller, so downward camera
motion uses the smaller easing constant. -/
theorem Game.cameraEasing_values :
    ∀ (g : Game),
      (0 < g.player.velocityY → g.cameraEasing = 5/100) ∧
      (g.player.velocityY ≤ 0 → g.cameraEasing = 1/10) ∧
      (5/100 : ℚ) < 1/10 ∧
      (g.updateCamera).camera.y =
        ease g.camera.y (g.updateCamera).camera.targetY g.cameraEasing := by
  intro g
  refine ⟨?_, ?_, by norm_num, ?_⟩
  · intro h
    simp [Game.cameraEasing, h]
  · intro h
    simp [Game.cameraEasing, not_lt.mpr h]
  · simp [Game.updateCamera]

/-- C1: across two consecutive generatePlatform calls, the frontier
highestPlatformY equals the y of the platform each call just produced, and
the vertical gap between the two platforms lies between the minGapY and
maxGapY in force at the second generation (generatePlatform never changes
the gap bounds).  The gap draw of the second call is a uniform fraction in
[0, 1) of the configured span. -/
theorem PlatformManager.generatePlatform_gap :
    ∀ (m : PlatformManager) (d1 d2 : GenDraws),
      0 ≤ d2.rGap → d2.rGap < 1 → m.minGapY ≤ m.maxGapY →
      (m.generatePlatform d1).1.highestPlatformY = (m.generatePlatform d1).2.y ∧
      ((m.generatePlatform d1).1.generatePlatform d2).1.highestPlatformY =
        ((m.generatePlatform d1).1.generatePlatform d2).2.y ∧
      (m.generatePlatform d1).1.minGapY ≤
        (m.generatePlatform d1).2.y -
          ((m.generatePlatform d1).1.generatePlatform d2).2.y ∧
      (m.generatePlatform d1).2.y -
          ((m.generatePlatform d1).1.generatePlatform d2).2.y ≤
        (m.generatePlatform d1).1.maxGapY := by
  intro m d1 d2 h0 h1 hg
  have hspan : 0 ≤ m.maxGapY - m.minGapY := sub_nonneg.mpr hg
  have hlo : 0 ≤ d2.rGap * (m.maxGapY - m.minGapY) := mul_nonneg h0 hspan
  have hhi : d2.rGap * (m.maxGapY - m.minGapY) ≤ m.maxGapY - m.minGapY := by
    nlinarith
  simp only [PlatformManager.generatePlatform, mkPlatform, randomBetween]
  refine ⟨trivial, trivial, ?_, ?_⟩ <;> linarith

/-- C1 witness: the two-step gap bound evaluated on the sample manager. -/
theorem PlatformManager.generatePlatform_gap_witness :
    (sampleManager.generatePlatform sampleDraws).1.highestPlatformY =
      (sampleManager.generatePlatform sampleDraws).2.y ∧
    ((sampleManager.generatePlatform sampleDraws).1.generatePlatform
        sampleDraws).1.highestPlatformY =
      ((sampleManager.generatePlatform sampleDraws).1.generatePlatform
        sampleDraws).2.y ∧
    (sampleManager.generatePlatform sampleDraws).1.minGapY ≤
      (sampleManager.generatePlatform sampleDraws).2.y -
        ((sampleManager.generatePlatform sampleDraws).1.generatePlatform
          sampleDraws).2.y ∧
    (sampleManager.generatePlatform sampleDraws).2.y -
        ((sampleManager.generatePlatform sampleDraws).1.generatePlatform
          sampleDraws).2.y ≤
      (sampleManager.generatePlatform sampleDraws).1.maxGapY :=
  PlatformManager.generatePlatform_gap sampleManager sampleDraws sampleDraws
    (by norm_num [sampleDraws]) (by norm_num [sampleDraws])
    (by norm_num [sampleManager])

/-- C6 counterexample: at score exactly 300 (inside the 300-310 consistency
window) the band pick selects disappearing and the last three platforms
contain a disappearing one, yet the final selection is bouncy, not the
normal the claim promises. -/
theorem PlatformManager.generatePlatform_fallback_counterexample :
    bandType 300 (95/100) = PlatformType.disappearing ∧
    PlatformType.disappearing ∈ sampleManager300.lastFewTypes ∧
    (sampleManager300.generatePlatform cexDraws).2.type = PlatformType.bouncy := by
  refine ⟨by norm_num [bandType], ?_, ?_⟩
  · simp [sampleManager300, sampleManager, PlatformManager.lastFewTypes, mkPlatform]
  · norm_num [PlatformManager.generatePlatform, PlatformManager.pickType,
      PlatformManager.lastFewTypes, bandType, randomBetween, mkPlatform,
      sampleManager300, sampleManager, cexDraws]

/-- C6 amended: whenever any of the last three platforms in the list is
disappearing, the platform generatePlatform produces is never disappearing —
the selection falls back to normal, except inside the score-300-310
consistency window where the override may yield bouncy instead. -/
theorem PlatformManager.generatePlatform_no_repeat_disappearing :
    ∀ (m : PlatformManager) (d : GenDraws),
      PlatformType.disappearing ∈ m.lastFewTypes →
      (m.generatePlatform d).2.type ≠ PlatformType.disappearing := by
  intro m d hmem
  simp only [PlatformManager.generatePlatform, PlatformManager.pickType, mkPlatform]
  split_ifs <;> simp_all

/-- C6 witness: the amended rule evaluated on a manager whose most recent
platform is disappearing. -/
theorem PlatformManager.generatePlatform_no_repeat_disappearing_witness :
    (sampleManagerDis.generatePlatform sampleDraws).2.type ≠
      PlatformType.disappearing :=
  PlatformManager.generatePlatform_no_repeat_disappearing sampleManagerDis
    sampleDraws
    (by simp [sampleManagerDis, sampleManager, PlatformManager.lastFewTypes,
      mkPlatform])

/-- The collision scan loop equals a first-match search: the handler fires
on the first platform of the list that is active, within vertical
tolerance and overlapping, and nothing past it is touched. -/
theorem scanCollisions_eq_find :
    ∀ (l : List Platform) (pl : PlayerState),
      scanCollisions l pl =
        (match l.find? (collisionMatch pl) with
        | some p => (true, (pl.onPlatformCollision p).1)
        | none => (false, pl)) := by
  intro l pl
  induction l with
  | nil => simp [scanCollisions]
  | cons p rest ih =>
    by_cases ha : p.active
    · by_cases hv : |p.y - (pl.y + pl.height)| > 20
      · have hm : collisionMatch pl p = false := by
          simp [collisionMatch, not_le.mpr hv]
        simp [scanCollisions, ha, hv, hm, ih]
      · by_cases ho : pl.x < p.x + p.width ∧ pl.x + pl.width > p.x ∧
            pl.y + pl.height ≥ p.y ∧ pl.y < p.y + p.height
        · have hm : collisionMatch pl p = true := by
            simp [collisionMatch, ha, ho.1, ho.2.1, ho.2.2.1, ho.2.2.2, not_lt.mp hv]
          simp [scanCollisions, ha, hv, ho, hm, PlayerState.onPlatformCollision]
        · have hm : collisionMatch pl p = false := by
            have ho' := ho
            push_neg at ho'
            simp [collisionMatch, ha, not_lt.mp hv]
            exact ho'
          simp [scanCollisions, ha, hv, ho, hm, ih]
    · have hm : collisionMatch pl p = false := by simp [collisionMatch, ha]
      simp [scanCollisions, ha, hm, ih]

/-- C4: checkCollisions resolves nothing while the player is not falling
(velocityY at or below 0, which covers every upward-moving state), and when
the player is falling it resolves at most one collision — the first
platform in list order that is active, within the vertical tolerance and
overlapping the player box — and stops scanning there. -/
theorem PlatformManager.checkCollisions_first_match :
    ∀ (m : PlatformManager) (pl : PlayerState),
      (pl.velocityY ≤ 0 → m.checkCollisions pl = (false, pl)) ∧
      (0 < pl.velocityY →
        m.checkCollisions pl =
          (match m.platforms.find? (collisionMatch pl) with
          | some p => (true, (pl.onPlatformCollision p).1)
          | none => (false, pl))) := by
  intro m pl
  constructor
  · intro h
    simp [PlatformManager.checkCollisions, h]
  · intro h
    simp [PlatformManager.checkCollisions, not_le.mpr h, scanCollisions_eq_find]

/-- C7: restart zeroes the score and the camera offset, resets the
difficulty to 1, and the rebuilt entity set contains a platform lying
directly under the newly placed player (horizontally containing it, top
edge at or below the player bottom). -/
theorem Game.restart_resets :
    ∀ (g : Game) (d : InitDraws),
      (g.restart d).score = 0 ∧
      (g.restart d).difficulty = 1 ∧
      (g.restart d).camera.y = 0 ∧
      (g.restart d).camera.targetY = 0 ∧
      ∃ p ∈ (g.restart d).platformManager.platforms,
        p.x ≤ (g.restart d).player.x ∧
        (g.restart d).player.x + (g.restart d).player.width ≤ p.x + p.width ∧
        (g.restart d).player.y + (g.restart d).player.height ≤ p.y := by
  intro g d
  simp only [Game.restart, Game.updateScore, Game.initEntities, lt_irrefl,
    gt_iff_lt, if_false]
  refine ⟨trivial, trivial, trivial, trivial,
    ⟨mkPlatform (g.canvasWidth / 2 - 40) (g.canvasHeight - 40) 80
      (mkPlatformManager g.canvasWidth g.canvasHeight 15 d).platformHeight
      .normal d.startingDir, ?_, ?_, ?_, ?_⟩⟩
  · exact List.mem_append_right _ (List.mem_singleton_self _)
  · simp [mkPlatform, mkPlayer]
    linarith
  · simp [mkPlatform, mkPlayer]
    linarith
  · simp [mkPlatform, mkPlayer]
    linarith

/-- The JavaScript < returns false when its right operand is NaN. -/
theorem JSNum.lt_nan_right (x : JSNum) : JSNum.lt x JSNum.nan = false := by
  cases x <;> rfl

/-- The JavaScript < returns false when its left operand is NaN. -/
theorem JSNum.lt_nan_left (x : JSNum) : JSNum.lt JSNum.nan x = false := by
  cases x <;> rfl

/-- C8 counterexample: a player whose y position is positive infinity is
not recovered — recoverPlayerIfNeeded ends the game (isAlive becomes
false), although the claim promises local recovery for every non-finite
position. -/
theorem recoverPlayerIfNeeded_inf_counterexample :
    sampleEnvInf.player.y = JSNum.inf ∧
    sampleEnvInf.player.isAlive = true ∧
    (recoverPlayerIfNeeded sampleEnvInf).player.isAlive = false := by
  refine ⟨rfl, rfl, ?_⟩
  norm_num [recoverPlayerIfNeeded, sampleEnvInf, JSNum.lt, JSNum.sub, JSNum.neg,
    JSNum.add, JSNum.mul, JSNum.isNaN]

/-- C8 amended: a NaN position or velocity is recovered locally — when the
vertical off-screen game-over test does not fire, the player is reset to the
horizontal center, placed relative to the camera at 70 percent of the screen
height, with zero horizontal velocity and the small upward velocity
jumpForce/2, and stays alive; infinite values, however, are not caught by
the NaN test (an infinite y instead triggers the game-over branch). -/
theorem recoverPlayerIfNeeded_nan :
    ∀ (g : RecoverEnv) (j : ℚ),
      (g.player.x = JSNum.nan ∨ g.player.y = JSNum.nan ∨
        g.player.velocityX = JSNum.nan ∨ g.player.velocityY = JSNum.nan) →
      JSNum.lt (JSNum.sub g.player.y g.cameraY) (JSNum.neg g.canvasHeight) = false →
      JSNum.lt (JSNum.mul g.canvasHeight (JSNum.num 2))
        (JSNum.sub g.player.y g.cameraY) = false →
      g.player.jumpForce = JSNum.num j → j < 0 →
      (recoverPlayerIfNeeded g).player.x =
        JSNum.sub (JSNum.div g.canvasWidth (JSNum.num 2))
          (JSNum.div g.player.width (JSNum.num 2)) ∧
      (recoverPlayerIfNeeded g).player.y =
        JSNum.add g.cameraY (JSNum.mul g.canvasHeight (JSNum.num (7/10))) ∧
      (recoverPlayerIfNeeded g).player.velocityX = JSNum.num 0 ∧
      (recoverPlayerIfNeeded g).player.velocityY = JSNum.num (j * (1/2)) ∧
      j * (1/2) < 0 ∧
      (recoverPlayerIfNeeded g).player.isAlive = g.player.isAlive := by
  intro g j h1 h2 h3 hj hjneg
  have hguard :
      (JSNum.isNaN (if (JSNum.lt g.player.x
          (JSNum.neg (JSNum.mul g.player.width (JSNum.num 2))) ||
          JSNum.lt (JSNum.add g.canvasWidth (JSNum.mul g.player.width (JSNum.num 2)))
            g.player.x) = true then
        JSNum.sub (JSNum.div g.canvasWidth (JSNum.num 2))
          (JSNum.div g.player.width (JSNum.num 2))
      else g.player.x) ||
        JSNum.isNaN g.player.y || JSNum.isNaN g.player.velocityX ||
        JSNum.isNaN g.player.velocityY) = true := by
    rcases h1 with hx | hy | hvx | hvy
    · rw [hx]
      simp [JSNum.lt_nan_left, JSNum.lt_nan_right, JSNum.isNaN]
    · rw [hy]
      simp [JSNum.isNaN]
    · rw [hvx]
      simp [JSNum.isNaN]
    · rw [hvy]
      simp [JSNum.isNaN]
  unfold recoverPlayerIfNeeded
  simp only [h2, h3, Bool.or_self, Bool.or_false, Bool.false_or, if_false]
  simp only [hguard, if_true]
  rw [hj]
  refine ⟨rfl, rfl, rfl, ?_, ?_, rfl⟩
  · simp [JSNum.mul]
  · linarith

/-- C8 witness: the NaN recovery evaluated on a player with NaN x and an
on-screen finite y. -/
theorem recoverPlayerIfNeeded_nan_witness :
    (recoverPlayerIfNeeded sampleEnvNaN).player.x =
      JSNum.sub (JSNum.div sampleEnvNaN.canvasWidth (JSNum.num 2))
        (JSNum.div sampleEnvNaN.player.width (JSNum.num 2)) ∧
    (recoverPlayerIfNeeded sampleEnvNaN).player.y =
      JSNum.add sampleEnvNaN.cameraY
        (JSNum.mul sampleEnvNaN.canvasHeight (JSNum.num (7/10))) ∧
    (recoverPlayerIfNeeded sampleEnvNaN).player.velocityX = JSNum.num 0 ∧
    (recoverPlayerIfNeeded sampleEnvNaN).player.velocityY =
      JSNum.num ((-15) * (1/2)) ∧
    (-15 : ℚ) * (1/2) < 0 ∧
    (recoverPlayerIfNeeded sampleEnvNaN).player.isAlive =
      sampleEnvNaN.player.isAlive :=
  recoverPlayerIfNeeded_nan sampleEnvNaN (-15)
    (Or.inl rfl)
    (by norm_num [sampleEnvNaN, JSNum.lt, JSNum.sub, JSNum.neg, JSNum.add])
    (by norm_num [sampleEnvNaN, JSNum.lt, JSNum.sub, JSNum.neg, JSNum.add,
      JSNum.mul])
    rfl
    (by norm_num)


/-- The generation loop drives the frontier below the look-ahead threshold:
with a positive minimum gap, gap bounds in order and nonnegative gap draws,
fuel covering the distance in minimum-gap steps suffices. -/
theorem genLoop_frontier_le :
    ∀ (fuel : ℕ) (m : PlatformManager) (cameraY : ℚ) (gens : ℕ → GenDraws),
      0 < m.minGapY → m.minGapY ≤ m.maxGapY → (∀ i, 0 ≤ (gens i).rGap) →
      m.highestPlatformY - fuel * m.minGapY ≤ cameraY - m.canvasHeight * 2 →
      (PlatformManager.genLoop fuel m cameraY gens).highestPlatformY ≤
        cameraY - m.canvasHeight * 2 := by
  intro fuel
  induction fuel with
  | zero =>
    intro m cameraY gens h1 h2 h3 h4
    simpa [PlatformManager.genLoop] using h4
  | succ n ih =>
    intro m cameraY gens h1 h2 h3 h4
    rw [PlatformManager.genLoop]
    split
    · next hgt =>
      have hgap : m.minGapY ≤ m.minGapY + (gens 0).rGap * (m.maxGapY - m.minGapY) := by
        nlinarith [h3 0, sub_nonneg.mpr h2]
      have h4' : (m.generatePlatform (gens 0)).1.highestPlatformY -
          n * (m.generatePlatform (gens 0)).1.minGapY ≤
          cameraY - (m.generatePlatform (gens 0)).1.canvasHeight * 2 := by
        show m.highestPlatformY - (m.minGapY + (gens 0).rGap * (m.maxGapY - m.minGapY)) -
            n * m.minGapY ≤ cameraY - m.canvasHeight * 2
        push_cast at h4
        linarith
      exact ih (m.generatePlatform (gens 0)).1 cameraY (fun k => gens (k + 1))
        h1 h2 (fun i => h3 (i + 1)) h4'
    · next hle =>
      exact le_of_not_lt hle

/-- C9: PlatformManager.update always leaves the frontier at least two
screen heights above the camera — with a positive minimum gap (and gap
draws in range) the generation while-loop makes progress of at least
minGapY per iteration, so it terminates with
highestPlatformY at or below cameraY - 2 * canvasHeight. -/
theorem PlatformManager.update_frontier_lookahead :
    ∀ (m : PlatformManager) (deltaTime cameraY : ℚ) (gens : ℕ → GenDraws)
      (f1 f2 : FillDraws),
      0 < m.minGapY → m.minGapY ≤ m.maxGapY → (∀ i, 0 ≤ (gens i).rGap) →
      (m.update deltaTime cameraY gens f1 f2).highestPlatformY ≤
        cameraY - 2 * m.canvasHeight := by
  intro m dt cy gens f1 f2 h1 h2 h3
  have hfuel : m.highestPlatformY -
      (m.genFuel cy : ℚ) * m.minGapY ≤ cy - m.canvasHeight * 2 := by
    unfold PlatformManager.genFuel
    rw [if_pos h1]
    set q := (m.highestPlatformY - (cy - m.canvasHeight * 2)) / m.minGapY with hq
    have hceil : q ≤ ((Int.ceil q).toNat : ℚ) := by
      calc q ≤ ((Int.ceil q : ℤ) : ℚ) := Int.le_ceil q
        _ ≤ (((Int.ceil q).toNat : ℤ) : ℚ) := by
            exact_mod_cast Int.self_le_toNat _
    have hmul : q * m.minGapY ≤ ((Int.ceil q).toNat : ℚ) * m.minGapY :=
      mul_le_mul_of_nonneg_right hceil (le_of_lt h1)
    have hqm : q * m.minGapY = m.highestPlatformY - (cy - m.canvasHeight * 2) := by
      rw [hq]
      field_simp
    linarith
  set L := (m.platforms.map (fun p => p.update dt m.canvasWidth)).filter (fun p => p.active && decide (p.y ≤ cy + m.canvasHeight + 300)) with hL
  have hfront : (m.update dt cy gens f1 f2).highestPlatformY =
      (PlatformManager.genLoop
        (PlatformManager.genFuel { m with platforms := L } cy)
        { m with platforms := L } cy gens).highestPlatformY := by
    simp only [PlatformManager.update, PlatformManager.pushFiller, ← hL]
    split <;> rfl
  rw [hfront]
  have hres := genLoop_frontier_le
    (PlatformManager.genFuel { m with platforms := L } cy)
    { m with platforms := L } cy gens h1 h2 h3 hfuel
  have hch : ({ m with platforms := L } : PlatformManager).canvasHeight =
      m.canvasHeight := rfl
  rw [hch] at hres
  linarith [hres]

/-- C9 witness: the look-ahead bound evaluated on the sample manager with
the camera at 2000. -/
theorem PlatformManager.update_frontier_lookahead_witness :
    (sampleManager.update 16 2000 (fun _ => sampleDraws) sampleFill
      sampleFill).highestPlatformY ≤ 2000 - 2 * sampleManager.canvasHeight :=
  PlatformManager.update_frontier_lookahead sampleManager 16 2000
    (fun _ => sampleDraws) sampleFill sampleFill
    (by norm_num [sampleManager]) (by norm_num [sampleManager])
    (fun i => le_refl 0)

end HopBunny
